import Mathlib

/-!
Verification of the humidex sensor core (`custom_components/humidex_sensor/sensor.py`).

The embedding models the reactive derivation pipeline of `HumidexSensor`:
the snapshot of the source entity states, the availability / parsing /
validation control flow of `_async_update_humidex`, the two vapor-pressure
formulas, the final humidex computation with rounding to one decimal, the
comfort-level classifier, and the published extra state attributes.

Control flow (presence, unavailable/unknown tags, numeric parsing, range
validation) is modelled computably over `ℚ`; the numeric formulas, which use
`math.exp`, are modelled over `ℝ` with `Real.exp`.
-/

namespace HumidexSensor

/-- The state string of a source entity, as `_async_update_humidex` inspects
it: the literal strings `"unavailable"` / `"unknown"`, a string that `float()`
parses (carrying its numeric value), or any other string, which `float()`
rejects with `ValueError`. -/
inductive StateVal
  | unavailable
  | unknown
  | numeric (q : ℚ)
  | nonNumeric
  deriving DecidableEq

/-- The `unit_of_measurement` attribute of the temperature entity, defaulting
to Celsius (sensor.py line 324). `other` stands for any string that is neither
the Celsius nor the Fahrenheit unit constant. -/
inductive TempUnit
  | celsius
  | fahrenheit
  | other
  deriving DecidableEq

/-- The calculation method selected in `_async_update_humidex`
(lines 335-342). -/
inductive Method
  | standard
  | enhanced
  deriving DecidableEq

/-- The five comfort levels returned by `_get_comfort_level`
(sensor.py lines 155-166; the Python code returns the corresponding
snake_case strings). -/
inductive ComfortLevel
  | cold
  | comfortable
  | slightly_uncomfortable
  | very_uncomfortable
  | dangerous
  deriving DecidableEq

/-- The log level of the message emitted on a failed evaluation cycle. -/
inductive LogLevel
  | warning
  | error
  deriving DecidableEq

/-- One snapshot of the source entity states, as `_async_update_humidex`
fetches them (lines 266-270): `temp` and `humidity` are
`hass.states.get(entity_id)` (`none` = entity not found), `pressureBound`
records whether a pressure entity is configured, `pressure` is its state when
bound, and `tempUnit` the temperature state's unit attribute. -/
structure SourceStates where
  temp : Option StateVal
  humidity : Option StateVal
  pressureBound : Bool
  pressure : Option StateVal
  tempUnit : TempUnit
  deriving DecidableEq

/-- `float(state)` on a state string: succeeds exactly on numeric states. -/
def parseNumeric : StateVal → Option ℚ
  | .numeric q => some q
  | _ => none

/-- Modelled from the spec: `TemperatureConverter.convert(t, FAHRENHEIT,
CELSIUS)` (sensor.py lines 200-202) lives in the external `homeassistant`
package, not in this repository; the spec gives the affine conversion
`C = (F - 32) * 5/9`. -/
def temperatureConverter_F_to_C (t : ℚ) : ℚ :=
  (t - 32) * 5 / 9

/-- `_convert_temperature_to_celsius` (sensor.py lines 197-203): convert only
when the declared unit is Fahrenheit, otherwise return the value unchanged. -/
def convert_temperature_to_celsius (temperature : ℚ) (unit : TempUnit) : ℚ :=
  match unit with
  | .fahrenheit => temperatureConverter_F_to_C temperature
  | _ => temperature

/-- `_validate_sensor_values` (sensor.py lines 205-231). -/
def validate_sensor_values (temperature humidity : ℚ) (pressure : Option ℚ) : Bool :=
  if ¬ (-50 ≤ temperature ∧ temperature ≤ 70) then false
  else if ¬ (0 ≤ humidity ∧ humidity ≤ 100) then false
  else
    match pressure with
    | some p => if ¬ (800 ≤ p ∧ p ≤ 1200) then false else true
    | none => true

/-- `_get_comfort_level` (sensor.py lines 155-166), polymorphic over the
ordered field so that it can be evaluated at `ℚ` and stated at `ℝ`. -/
def get_comfort_level {α : Type} [LinearOrderedField α] (humidex : α) : ComfortLevel :=
  if humidex < 20 then .cold
  else if humidex ≤ 29 then .comfortable
  else if humidex ≤ 39 then .slightly_uncomfortable
  else if humidex ≤ 45 then .very_uncomfortable
  else .dangerous

/-- Outcome of the control-flow part of `_async_update_humidex` (lines
266-332): either a failure (with the log level of the message emitted), or
the validated inputs handed to the humidex calculation: temperature in
Celsius, humidity, and the optional parsed pressure. -/
inductive EvalOutcome
  | fail (level : LogLevel)
  | ok (temperatureC humidity : ℚ) (pressure : Option ℚ)
  deriving DecidableEq

/-- The control flow of `_async_update_humidex` (sensor.py lines 262-332),
up to but not including the numeric humidex computation:

* lines 266-270: fetch states; the pressure state is only fetched when a
  pressure entity is bound;
* lines 272-284: temperature or humidity entity not found → warning, fail;
* lines 287-299: temperature or humidity state `unavailable`/`unknown` →
  warning, fail;
* lines 302-305: bound pressure state `unavailable`/`unknown` → degrade to
  no pressure, continue;
* lines 308-321: `float()` parsing; any `ValueError` (a non-numeric
  temperature, humidity, or surviving pressure state) → error, fail;
* lines 324-325: convert temperature to Celsius;
* lines 328-332: range validation failure → warning (logged inside
  `_validate_sensor_values`), fail. -/
def evalInputs (s : SourceStates) : EvalOutcome :=
  let pressure_state0 : Option StateVal := if s.pressureBound then s.pressure else none
  match s.temp with
  | none => .fail .warning
  | some temp_state =>
    match s.humidity with
    | none => .fail .warning
    | some humidity_state =>
      if temp_state = .unavailable ∨ temp_state = .unknown then .fail .warning
      else if humidity_state = .unavailable ∨ humidity_state = .unknown then .fail .warning
      else
        let pressure_state : Option StateVal :=
          match pressure_state0 with
          | some ps => if ps = .unavailable ∨ ps = .unknown then none else some ps
          | none => none
        match parseNumeric temp_state with
        | none => .fail .error
        | some temperature_raw =>
          match parseNumeric humidity_state with
          | none => .fail .error
          | some humidity =>
            let pressureParsed : Option (Option ℚ) :=
              match pressure_state with
              | none => some none
              | some ps =>
                if ps = .unavailable ∨ ps = .unknown then some none
                else
                  match parseNumeric ps with
                  | none => none
                  | some p => some (some p)
            match pressureParsed with
            | none => .fail .error
            | some pressure =>
              let temperature := convert_temperature_to_celsius temperature_raw s.tempUnit
              if validate_sensor_values temperature humidity pressure then
                .ok temperature humidity pressure
              else .fail .warning

/-- `_calculate_dew_point` (sensor.py lines 168-170). -/
noncomputable def calculate_dew_point (temperature humidity : ℝ) : ℝ :=
  temperature - ((100 - humidity) / 5)

/-- `_calculate_vapor_pressure_standard` (sensor.py lines 172-182):
`e = 6.11 * exp(5417.7530 * ((1/273.15) - (1/(dew_point + 273.15))))`. -/
noncomputable def calculate_vapor_pressure_standard (temperature humidity : ℝ) : ℝ :=
  6.11 * Real.exp (5417.7530 *
    ((1 / 273.15 : ℝ) - 1 / (calculate_dew_point temperature humidity + 273.15)))

/-- `_calculate_vapor_pressure_enhanced` (sensor.py lines 184-195):
`es = 6.1078 * exp((17.27 * T) / (T + 237.3))`; `e = (RH/100) * es`;
`e_corrected = e * (P / 1013.25)`. -/
noncomputable def calculate_vapor_pressure_enhanced
    (temperature humidity pressure : ℝ) : ℝ :=
  ((humidity / 100) * (6.1078 * Real.exp ((17.27 * temperature) / (temperature + 237.3)))) *
    (pressure / 1013.25)

/-- Python's `round(x, 1)` (sensor.py line 348), modelled over the reals:
round `10 * x` to the nearest integer and divide by 10. -/
noncomputable def roundTo1 (x : ℝ) : ℝ :=
  (round (10 * x) : ℤ) / 10

/-- The humidex formula of sensor.py line 345:
`humidex = temperature + 0.5555 * (vapor_pressure - 10)`. -/
noncomputable def humidexFormula (temperature vapor_pressure : ℝ) : ℝ :=
  temperature + 0.5555 * (vapor_pressure - 10)

/-- The observable result of one evaluation cycle: `_attr_native_value`,
`_attr_available`, and the `calculation_method` local variable chosen at
lines 335-342 (`none` when the cycle failed before reaching it). -/
structure DerivedResult where
  native_value : Option ℝ
  available : Bool
  method : Option Method

/-- One full run of `_async_update_humidex` (sensor.py lines 262-363) on a
snapshot of the source states: the control flow `evalInputs`, then the
method selection (lines 335-342), the humidex formula (line 345) and the
rounding (line 348). Every failure path sets `_attr_native_value = None`
and `_attr_available = False`. -/
noncomputable def update_humidex (s : SourceStates) : DerivedResult :=
  match evalInputs s with
  | .fail _ => { native_value := none, available := false, method := none }
  | .ok temperature humidity pressure =>
    let vapor_pressure : ℝ :=
      match pressure with
      | some p => calculate_vapor_pressure_enhanced temperature humidity p
      | none => calculate_vapor_pressure_standard temperature humidity
    let calculation_method : Method :=
      match pressure with
      | some _ => .enhanced
      | none => .standard
    { native_value := some (roundTo1 (humidexFormula temperature vapor_pressure))
      available := true
      method := some calculation_method }

/-- The `calculation_method` entry of `extra_state_attributes`
(sensor.py lines 109-113): it depends only on whether a pressure entity is
configured, not on the method actually used in the last computation. -/
def attrs_calculation_method (s : SourceStates) : Method :=
  if s.pressureBound then .enhanced else .standard

/-- The `comfort_level` entry of `extra_state_attributes`
(sensor.py lines 116-117): present exactly when `_attr_native_value` is. -/
noncomputable def attrs_comfort_level (r : DerivedResult) : Option ComfortLevel :=
  r.native_value.map get_comfort_level

/-- C6: `_get_comfort_level` is total: for every real humidex it returns
exactly one of the five levels, with `cold` for humidex < 20, `comfortable`
for 20 ≤ humidex ≤ 29, `slightly_uncomfortable` for 29 < humidex ≤ 39,
`very_uncomfortable` for 39 < humidex ≤ 45 and `dangerous` for humidex > 45;
each boundary value 20, 29, 39, 45 maps to the lower of the two adjacent
bands. -/
lemma comfort_cold_iff (x : ℝ) : get_comfort_level x = .cold ↔ x < 20 := by
  unfold get_comfort_level
  split_ifs with h1 h2 h3 h4 <;> simp <;> first | (constructor <;> linarith) | (intros; linarith) | linarith

lemma comfort_comfortable_iff (x : ℝ) :
    get_comfort_level x = .comfortable ↔ 20 ≤ x ∧ x ≤ 29 := by
  unfold get_comfort_level
  split_ifs with h1 h2 h3 h4 <;> simp <;> first | (constructor <;> linarith) | (intros; linarith) | linarith

lemma comfort_slightly_iff (x : ℝ) :
    get_comfort_level x = .slightly_uncomfortable ↔ 29 < x ∧ x ≤ 39 := by
  unfold get_comfort_level
  split_ifs with h1 h2 h3 h4 <;> simp <;> first | (constructor <;> linarith) | (intros; linarith) | linarith

lemma comfort_very_iff (x : ℝ) :
    get_comfort_level x = .very_uncomfortable ↔ 39 < x ∧ x ≤ 45 := by
  unfold get_comfort_level
  split_ifs with h1 h2 h3 h4 <;> simp <;> first | (constructor <;> linarith) | (intros; linarith) | linarith

lemma comfort_dangerous_iff (x : ℝ) : get_comfort_level x = .dangerous ↔ 45 < x := by
  unfold get_comfort_level
  split_ifs with h1 h2 h3 h4 <;> simp <;> first | (constructor <;> linarith) | (intros; linarith) | linarith

theorem C6_comfort_level_bands (x : ℝ) :
    (get_comfort_level x = .cold ↔ x < 20) ∧
    (get_comfort_level x = .comfortable ↔ 20 ≤ x ∧ x ≤ 29) ∧
    (get_comfort_level x = .slightly_uncomfortable ↔ 29 < x ∧ x ≤ 39) ∧
    (get_comfort_level x = .very_uncomfortable ↔ 39 < x ∧ x ≤ 45) ∧
    (get_comfort_level x = .dangerous ↔ 45 < x) ∧
    get_comfort_level (20 : ℝ) = .comfortable ∧
    get_comfort_level (29 : ℝ) = .comfortable ∧
    get_comfort_level (39 : ℝ) = .slightly_uncomfortable ∧
    get_comfort_level (45 : ℝ) = .very_uncomfortable :=
  ⟨comfort_cold_iff x, comfort_comfortable_iff x, comfort_slightly_iff x,
   comfort_very_iff x, comfort_dangerous_iff x,
   (comfort_comfortable_iff 20).mpr (by norm_num),
   (comfort_comfortable_iff 29).mpr (by norm_num),
   (comfort_slightly_iff 39).mpr (by norm_num),
   (comfort_very_iff 45).mpr (by norm_num)⟩

/-- C10: `_convert_temperature_to_celsius` maps 32 °F to 0 °C and 212 °F to
100 °C via the affine conversion `C = (F - 32) * 5/9`, and is the identity
for every unit other than Fahrenheit, including Celsius and unrecognized
units. -/
theorem C10_convert_temperature :
    convert_temperature_to_celsius 32 .fahrenheit = 0 ∧
    convert_temperature_to_celsius 212 .fahrenheit = 100 ∧
    (∀ x : ℚ, convert_temperature_to_celsius x .fahrenheit = (x - 32) * 5 / 9) ∧
    (∀ (x : ℚ) (u : TempUnit), u ≠ .fahrenheit → convert_temperature_to_celsius x u = x) := by
  refine ⟨?_, ?_, fun x => rfl, ?_⟩
  · norm_num [convert_temperature_to_celsius, temperatureConverter_F_to_C]
  · norm_num [convert_temperature_to_celsius, temperatureConverter_F_to_C]
  · intro x u hu
    cases u with
    | fahrenheit => exact absurd rfl hu
    | celsius => rfl
    | other => rfl

/-- Witness for C10 at the concrete input (7, celsius) and (7, other). -/
theorem C10_convert_temperature_witness :
    convert_temperature_to_celsius 7 .celsius = 7 ∧
    convert_temperature_to_celsius 7 .other = 7 :=
  ⟨C10_convert_temperature.2.2.2 7 .celsius (by decide),
   C10_convert_temperature.2.2.2 7 .other (by decide)⟩

/-- The published humidex of a Standard-method cycle: lines 341, 345, 348
composed. -/
noncomputable def humidex_standard (temperature humidity : ℝ) : ℝ :=
  roundTo1 (humidexFormula temperature (calculate_vapor_pressure_standard temperature humidity))

/-- The published humidex of an Enhanced-method cycle: lines 337, 345, 348
composed. -/
noncomputable def humidex_enhanced (temperature humidity pressure : ℝ) : ℝ :=
  roundTo1 (humidexFormula temperature
    (calculate_vapor_pressure_enhanced temperature humidity pressure))

lemma round_real_mono {x y : ℝ} (h : x ≤ y) : round x ≤ round y := by
  rw [round_eq, round_eq]
  exact Int.floor_mono (by linarith)

lemma roundTo1_mono {x y : ℝ} (h : x ≤ y) : roundTo1 x ≤ roundTo1 y := by
  unfold roundTo1
  have h10 : round (10 * x) ≤ round (10 * y) := round_real_mono (by linarith)
  have : ((round (10 * x) : ℤ) : ℝ) ≤ ((round (10 * y) : ℤ) : ℝ) := Int.cast_le.mpr h10
  linarith

lemma vp_standard_mono {T RH₁ RH₂ : ℝ} (hT : -50 ≤ T) (h0 : 0 ≤ RH₁) (h12 : RH₁ ≤ RH₂) :
    calculate_vapor_pressure_standard T RH₁ ≤ calculate_vapor_pressure_standard T RH₂ := by
  unfold calculate_vapor_pressure_standard calculate_dew_point
  have hd1 : (0 : ℝ) < T - ((100 - RH₁) / 5) + 273.15 := by linarith
  have hd12 : T - ((100 - RH₁) / 5) + 273.15 ≤ T - ((100 - RH₂) / 5) + 273.15 := by linarith
  have hinv : 1 / (T - ((100 - RH₂) / 5) + 273.15) ≤ 1 / (T - ((100 - RH₁) / 5) + 273.15) :=
    one_div_le_one_div_of_le hd1 hd12
  have : (6.11 : ℝ) ≥ 0 := by norm_num
  apply mul_le_mul_of_nonneg_left _ this
  apply Real.exp_le_exp.mpr
  apply mul_le_mul_of_nonneg_left _ (by norm_num)
  linarith

lemma vp_enhanced_mono {T RH₁ RH₂ P : ℝ} (h12 : RH₁ ≤ RH₂) (hP : 0 ≤ P) :
    calculate_vapor_pressure_enhanced T RH₁ P ≤ calculate_vapor_pressure_enhanced T RH₂ P := by
  unfold calculate_vapor_pressure_enhanced
  have hes : (0 : ℝ) ≤ 6.1078 * Real.exp ((17.27 * T) / (T + 237.3)) := by positivity
  apply mul_le_mul_of_nonneg_right _ (by positivity)
  apply mul_le_mul_of_nonneg_right _ hes
  linarith

/-- C9: at fixed temperature (and, for the Enhanced method, fixed valid
pressure), increasing relative humidity never decreases the vapor pressure
nor the published (rounded) humidex, under both methods. -/
theorem C9_humidex_monotone_in_humidity (T RH₁ RH₂ P : ℝ)
    (hT1 : -50 ≤ T) (hT2 : T ≤ 70) (h0 : 0 ≤ RH₁) (h12 : RH₁ ≤ RH₂) (h100 : RH₂ ≤ 100)
    (hP1 : 800 ≤ P) (hP2 : P ≤ 1200) :
    calculate_vapor_pressure_standard T RH₁ ≤ calculate_vapor_pressure_standard T RH₂ ∧
    calculate_vapor_pressure_enhanced T RH₁ P ≤ calculate_vapor_pressure_enhanced T RH₂ P ∧
    humidex_standard T RH₁ ≤ humidex_standard T RH₂ ∧
    humidex_enhanced T RH₁ P ≤ humidex_enhanced T RH₂ P := by
  have hs := vp_standard_mono hT1 h0 h12
  have he := vp_enhanced_mono (T := T) h12 (by linarith : (0:ℝ) ≤ P)
  refine ⟨hs, he, ?_, ?_⟩
  · exact roundTo1_mono (by unfold humidexFormula; linarith)
  · exact roundTo1_mono (by unfold humidexFormula; linarith)

/-- Witness for C9 at T = 30 °C, RH₁ = 40 %, RH₂ = 60 %, P = 1013 hPa. -/
theorem C9_humidex_monotone_witness :
    calculate_vapor_pressure_standard 30 40 ≤ calculate_vapor_pressure_standard 30 60 ∧
    calculate_vapor_pressure_enhanced 30 40 1013 ≤ calculate_vapor_pressure_enhanced 30 60 1013 ∧
    humidex_standard 30 40 ≤ humidex_standard 30 60 ∧
    humidex_enhanced 30 40 1013 ≤ humidex_enhanced 30 60 1013 :=
  C9_humidex_monotone_in_humidity 30 40 60 1013 (by norm_num) (by norm_num) (by norm_num)
    (by norm_num) (by norm_num) (by norm_num) (by norm_num)

lemma update_fail {s : SourceStates} {lvl : LogLevel} (h : evalInputs s = .fail lvl) :
    update_humidex s = ⟨none, false, none⟩ := by
  unfold update_humidex; rw [h]

lemma update_ok_standard {s : SourceStates} {t hq : ℚ} (h : evalInputs s = .ok t hq none) :
    update_humidex s = ⟨some (humidex_standard t hq), true, some .standard⟩ := by
  unfold update_humidex; rw [h]; rfl

lemma update_ok_enhanced {s : SourceStates} {t hq p : ℚ} (h : evalInputs s = .ok t hq (some p)) :
    update_humidex s = ⟨some (humidex_enhanced t hq p), true, some .enhanced⟩ := by
  unfold update_humidex; rw [h]; rfl

lemma update_available_iff (s : SourceStates) :
    (update_humidex s).available = true ↔ ∃ t h p, evalInputs s = .ok t h p := by
  cases hev : evalInputs s with
  | fail lvl => simp [update_fail hev, hev]
  | ok t h p =>
    cases p with
    | none => simp [update_ok_standard hev, hev]
    | some pv => simp [update_ok_enhanced hev, hev]

lemma eval_ok_validate {s : SourceStates} {t h : ℚ} {p : Option ℚ}
    (hev : evalInputs s = .ok t h p) : validate_sensor_values t h p = true := by
  obtain ⟨temp, hum, pb, pr, u⟩ := s
  rcases temp with _ | tv <;> rcases hum with _ | hv <;>
    (try rcases tv with _ | _ | tq | _) <;> (try rcases hv with _ | _ | hq | _) <;>
    rcases pb with _ | _ <;> rcases pr with _ | pv <;> (try rcases pv with _ | _ | pq | _) <;>
    simp_all [evalInputs, parseNumeric, ite_eq_iff] <;>
    (try (obtain ⟨hval, rfl, rfl, rfl⟩ := hev; exact hval))

/-- The availability condition as the amended claim C2 words it: the
temperature and humidity Readings are present with numeric values, the
temperature converted to Celsius lies in [-50, 70], the humidity in
[0, 100], and the bound pressure Reading — when present and not
unavailable/unknown — has a numeric value within [800, 1200]. -/
def spec_available (s : SourceStates) : Prop :=
  ∃ tq hq,
    s.temp = some (.numeric tq) ∧
    s.humidity = some (.numeric hq) ∧
    -50 ≤ convert_temperature_to_celsius tq s.tempUnit ∧
    convert_temperature_to_celsius tq s.tempUnit ≤ 70 ∧
    0 ≤ hq ∧ hq ≤ 100 ∧
    (match (if s.pressureBound then s.pressure else none) with
     | some (.numeric pq) => 800 ≤ pq ∧ pq ≤ 1200
     | some .nonNumeric => False
     | _ => True)

lemma validate_eq_true_iff (t h : ℚ) (p : Option ℚ) :
    validate_sensor_values t h p = true ↔
      (-50 ≤ t ∧ t ≤ 70) ∧ (0 ≤ h ∧ h ≤ 100) ∧
      (∀ pv, p = some pv → 800 ≤ pv ∧ pv ≤ 1200) := by
  unfold validate_sensor_values
  rcases p with _ | pv <;> split_ifs <;> simp_all <;> tauto

lemma eval_ok_iff_spec (s : SourceStates) :
    (∃ t h p, evalInputs s = .ok t h p) ↔ spec_available s := by
  obtain ⟨temp, hum, pb, pr, u⟩ := s
  rcases temp with _ | tv
  · simp [evalInputs, spec_available]
  rcases hum with _ | hv
  · cases tv <;> simp [evalInputs, spec_available]
  rcases tv with _ | _ | tq | _ <;> rcases hv with _ | _ | hq | _ <;>
    rcases pb with _ | _ <;> rcases pr with _ | pv <;>
    (try rcases pv with _ | _ | pq | _) <;>
    simp [evalInputs, spec_available, parseNumeric, validate_eq_true_iff, ite_eq_iff] <;>
    tauto

/-- C2 (amended): the engine publishes a numeric humidex — `available = true`
— exactly when the temperature and humidity Readings are present, numeric
and in range (temperature in Celsius within [-50, 70], humidity within
[0, 100]) and the bound pressure Reading, when present and not
unavailable/unknown, parses numerically and lies within [800, 1200];
and the humidex value and the `comfort_level` attribute are set together
or both absent. -/
theorem C2_available_characterization (s : SourceStates) :
    ((update_humidex s).available = true ↔ spec_available s) ∧
    ((attrs_comfort_level (update_humidex s)).isSome ↔ (update_humidex s).native_value.isSome) ∧
    ((update_humidex s).native_value.isSome ↔ (update_humidex s).available = true) := by
  refine ⟨(update_available_iff s).trans (eval_ok_iff_spec s), ?_, ?_⟩
  · simp [attrs_comfort_level]
  · cases hev : evalInputs s with
    | fail lvl => simp [update_fail hev]
    | ok t h p =>
      cases p with
      | none => simp [update_ok_standard hev]
      | some pv => simp [update_ok_enhanced hev]

/-- C2 counterexample: with temperature 25 °C and humidity 50 % (present,
numeric, in range) but a bound pressure Reading whose value fails numeric
parsing, the published result is unavailable — although all required
Readings were present, numeric and in range, so the claimed equivalence
demands `available = true`. -/
theorem C2_available_counterexample :
    (update_humidex ⟨some (.numeric 25), some (.numeric 50), true, some .nonNumeric,
        .celsius⟩).available = false ∧
    ((-50 : ℚ) ≤ 25 ∧ (25 : ℚ) ≤ 70) ∧ ((0 : ℚ) ≤ 50 ∧ (50 : ℚ) ≤ 100) := by
  have hev : evalInputs ⟨some (.numeric 25), some (.numeric 50), true, some .nonNumeric,
      .celsius⟩ = .fail .error := by decide
  exact ⟨by rw [update_fail hev], by norm_num, by norm_num⟩

/-- C1 (code bug): the published `calculation_method` attribute is
`enhanced` whenever a pressure entity is configured, even on a cycle in
which the pressure Reading was unavailable and the Standard formula was
actually used (the internal `calculation_method` of the update is
`standard`): sensor.py lines 109-113 ignore the method actually chosen at
lines 335-342. -/
theorem C1_method_attribute_divergence :
    attrs_calculation_method ⟨some (.numeric 25), some (.numeric 50), true, some .unavailable,
        .celsius⟩ = .enhanced ∧
    (update_humidex ⟨some (.numeric 25), some (.numeric 50), true, some .unavailable,
        .celsius⟩).method = some .standard ∧
    (update_humidex ⟨some (.numeric 25), some (.numeric 50), true, some .unavailable,
        .celsius⟩).available = true := by
  have hev : evalInputs ⟨some (.numeric 25), some (.numeric 50), true, some .unavailable,
      .celsius⟩ = .ok 25 50 none := by decide
  exact ⟨rfl, by rw [update_ok_standard hev], by rw [update_ok_standard hev]⟩

/-- C4 counterexample: with temperature 20 °C and humidity 40 % parsing
successfully but a bound pressure Reading that is present and non-numeric,
the whole evaluation is marked unavailable (no method is selected), instead
of degrading pressure to absent and proceeding with the Standard method as
the claim states. -/
theorem C4_pressure_parse_counterexample :
    (update_humidex ⟨some (.numeric 20), some (.numeric 40), true, some .nonNumeric,
        .celsius⟩).available = false ∧
    (update_humidex ⟨some (.numeric 20), some (.numeric 40), true, some .nonNumeric,
        .celsius⟩).method = none := by
  have hev : evalInputs ⟨some (.numeric 20), some (.numeric 40), true, some .nonNumeric,
      .celsius⟩ = .fail .error := by decide
  exact ⟨by rw [update_fail hev], by rw [update_fail hev]⟩

/-- C4 (amended): when the bound pressure Reading is present (not
unavailable/unknown) but fails numeric parsing while temperature and
humidity parse successfully, the evaluation fails as a whole — an error is
logged and the result is set unavailable, exactly as for a temperature or
humidity parse failure; pressure is not degraded to absent. -/
theorem C4_pressure_parse_fatal (s : SourceStates) (t h : ℚ)
    (hb : s.pressureBound = true) (hp : s.pressure = some .nonNumeric)
    (ht : s.temp = some (.numeric t)) (hh : s.humidity = some (.numeric h)) :
    evalInputs s = .fail .error ∧
    (update_humidex s).available = false ∧
    (update_humidex s).native_value = none := by
  have hev : evalInputs s = .fail .error := by
    obtain ⟨temp, hum, pb, pr, u⟩ := s
    simp only at hb hp ht hh
    subst hb hp ht hh
    simp [evalInputs, parseNumeric]
  exact ⟨hev, by rw [update_fail hev], by rw [update_fail hev]⟩

/-- Witness for C4 at temperature 20 °C, humidity 40 %, non-numeric bound
pressure. -/
theorem C4_pressure_parse_fatal_witness :
    evalInputs ⟨some (.numeric 20), some (.numeric 40), true, some .nonNumeric, .celsius⟩ =
        .fail .error ∧
    (update_humidex ⟨some (.numeric 20), some (.numeric 40), true, some .nonNumeric,
        .celsius⟩).available = false ∧
    (update_humidex ⟨some (.numeric 20), some (.numeric 40), true, some .nonNumeric,
        .celsius⟩).native_value = none :=
  C4_pressure_parse_fatal _ 20 40 rfl rfl rfl rfl

/-- C5 counterexample: a bound pressure id with no Reading at all does not
make the result unavailable — with temperature 25 °C and humidity 50 %
present the computation proceeds with the Standard method and publishes a
value, contradicting the claim that any bound source id with no Reading
yields an unavailable result. -/
theorem C5_missing_pressure_counterexample :
    (update_humidex ⟨some (.numeric 25), some (.numeric 50), true, none,
        .celsius⟩).available = true ∧
    (update_humidex ⟨some (.numeric 25), some (.numeric 50), true, none,
        .celsius⟩).method = some .standard := by
  have hev : evalInputs ⟨some (.numeric 25), some (.numeric 50), true, none,
      .celsius⟩ = .ok 25 50 none := by decide
  exact ⟨by rw [update_ok_standard hev], by rw [update_ok_standard hev]⟩

/-- C5 (amended): a temperature or humidity id with no Reading at all makes
the result unavailable with a warning logged; a bound pressure id with no
Reading, by contrast, behaves exactly as if no pressure entity were bound
(the evaluation proceeds with the Standard method). -/
theorem C5_missing_source (s : SourceStates) :
    (s.temp = none ∨ s.humidity = none →
      evalInputs s = .fail .warning ∧
      (update_humidex s).available = false ∧
      (update_humidex s).native_value = none) ∧
    (s.pressure = none →
      evalInputs s = evalInputs { s with pressureBound := false }) := by
  constructor
  · intro hmiss
    have hev : evalInputs s = .fail .warning := by
      obtain ⟨temp, hum, pb, pr, u⟩ := s
      rcases hmiss with hmiss | hmiss <;> simp only at hmiss <;> subst hmiss
      · simp [evalInputs]
      · rcases temp with _ | tv <;> simp [evalInputs]
    exact ⟨hev, by rw [update_fail hev], by rw [update_fail hev]⟩
  · intro hp
    obtain ⟨temp, hum, pb, pr, u⟩ := s
    simp only at hp
    subst hp
    simp [evalInputs]

/-- Witness for C5: a missing temperature Reading yields an unavailable
result with a warning, and a missing bound pressure Reading leaves the
evaluation identical to the unbound-pressure evaluation. -/
theorem C5_missing_source_witness :
    (evalInputs ⟨none, some (.numeric 50), false, none, .celsius⟩ = .fail .warning ∧
      (update_humidex ⟨none, some (.numeric 50), false, none, .celsius⟩).available = false ∧
      (update_humidex ⟨none, some (.numeric 50), false, none, .celsius⟩).native_value = none) ∧
    evalInputs ⟨some (.numeric 25), some (.numeric 50), true, none, .celsius⟩ =
      evalInputs ⟨some (.numeric 25), some (.numeric 50), false, none, .celsius⟩ :=
  ⟨(C5_missing_source _).1 (Or.inl rfl), (C5_missing_source _).2 rfl⟩

/-- The Standard-method humidex as claim C7 words it: `Td = T - (100-RH)/5`,
`e = 6.11 * exp(5417.7530 * (1/273.15 - 1/(Td + 273.15)))`, humidex
`T + 0.5555 * (e - 10)` rounded to one decimal place. -/
noncomputable def spec_standard_humidex (T RH : ℝ) : ℝ :=
  roundTo1 (T + 0.5555 *
    (6.11 * Real.exp (5417.7530 * (1 / 273.15 - 1 / ((T - (100 - RH) / 5) + 273.15))) - 10))

/-- C7: for every snapshot whose evaluation passes validation with pressure
absent, the published value is exactly the Standard-method formula of the
claim applied to the validated temperature (in Celsius) and humidity,
rounded to one decimal place, and the Standard method is recorded. -/
theorem C7_standard_formula (s : SourceStates) (t h : ℚ)
    (hev : evalInputs s = .ok t h none) :
    (update_humidex s).native_value = some (spec_standard_humidex t h) ∧
    (update_humidex s).method = some .standard := by
  rw [update_ok_standard hev]
  exact ⟨rfl, rfl⟩

/-- Witness for C7 at temperature 30 °C, humidity 60 %, no pressure bound. -/
theorem C7_standard_formula_witness :
    (update_humidex ⟨some (.numeric 30), some (.numeric 60), false, none,
        .celsius⟩).native_value = some (spec_standard_humidex 30 60) ∧
    (update_humidex ⟨some (.numeric 30), some (.numeric 60), false, none,
        .celsius⟩).method = some .standard :=
  C7_standard_formula _ 30 60 (by decide)

/-- The Enhanced-method vapor pressure as claim C8 words it:
`e' = (RH/100) * 6.1078 * exp(17.27*T/(T + 237.3)) * (P/1013.25)`. -/
noncomputable def spec_enhanced_vapor_pressure (T RH P : ℝ) : ℝ :=
  (RH / 100) * (6.1078 * Real.exp (17.27 * T / (T + 237.3))) * (P / 1013.25)

/-- C8: the Enhanced method is selected exactly when the evaluation succeeds
with a pressure value present (which is then necessarily numeric and within
[800, 1200]), in which case the vapor pressure entering the humidex formula
is the claim's pressure-corrected Magnus-Tetens expression; otherwise the
Standard method is selected — the two methods are mutually exclusive. -/
theorem C8_enhanced_selection (s : SourceStates) :
    ((update_humidex s).method = some .enhanced ↔
      ∃ t h p, evalInputs s = .ok t h (some p)) ∧
    ((update_humidex s).method = some .standard ↔
      ∃ t h, evalInputs s = .ok t h none) ∧
    (∀ t h p : ℚ, evalInputs s = .ok t h (some p) →
      (800 ≤ p ∧ p ≤ 1200) ∧
      (update_humidex s).native_value =
        some (roundTo1 (humidexFormula (t : ℝ) (spec_enhanced_vapor_pressure t h p)))) ∧
    ¬ ((update_humidex s).method = some .enhanced ∧
        (update_humidex s).method = some .standard) := by
  refine ⟨?_, ?_, ?_, ?_⟩
  · cases hev : evalInputs s with
    | fail lvl => simp [update_fail hev, hev]
    | ok t h p =>
      cases p with
      | none => simp [update_ok_standard hev, hev]
      | some pv => simp [update_ok_enhanced hev, hev]
  · cases hev : evalInputs s with
    | fail lvl => simp [update_fail hev, hev]
    | ok t h p =>
      cases p with
      | none => simp [update_ok_standard hev, hev]
      | some pv => simp [update_ok_enhanced hev, hev]
  · intro t h p hev
    have hval := eval_ok_validate hev
    rw [validate_eq_true_iff] at hval
    refine ⟨hval.2.2 p rfl, ?_⟩
    rw [update_ok_enhanced hev]
    rfl
  · cases hev : evalInputs s with
    | fail lvl => simp [update_fail hev]
    | ok t h p =>
      cases p with
      | none => simp [update_ok_standard hev]
      | some pv => simp [update_ok_enhanced hev]

/-- Witness for C8 at temperature 25 °C, humidity 50 %, pressure 1013 hPa. -/
theorem C8_enhanced_selection_witness :
    (update_humidex ⟨some (.numeric 25), some (.numeric 50), true, some (.numeric 1013),
        .celsius⟩).method = some .enhanced ∧
    ((800 : ℚ) ≤ 1013 ∧ (1013 : ℚ) ≤ 1200) ∧
    (update_humidex ⟨some (.numeric 25), some (.numeric 50), true, some (.numeric 1013),
        .celsius⟩).native_value =
      some (roundTo1 (humidexFormula ((25 : ℚ) : ℝ)
        (spec_enhanced_vapor_pressure ((25 : ℚ) : ℝ) ((50 : ℚ) : ℝ) ((1013 : ℚ) : ℝ)))) :=
  ⟨(C8_enhanced_selection ⟨some (.numeric 25), some (.numeric 50), true, some (.numeric 1013),
      .celsius⟩).1.mpr ⟨25, 50, 1013, by decide⟩,
   ((C8_enhanced_selection ⟨some (.numeric 25), some (.numeric 50), true, some (.numeric 1013),
      .celsius⟩).2.2.1 25 50 1013 (by decide)).1,
   ((C8_enhanced_selection ⟨some (.numeric 25), some (.numeric 50), true, some (.numeric 1013),
      .celsius⟩).2.2.1 25 50 1013 (by decide)).2⟩

lemma exp_04784_lower : (1.6132 : ℝ) ≤ Real.exp 0.4784 := by
  have h5 := Real.sum_le_exp_of_nonneg (show (0:ℝ) ≤ 0.4784 by norm_num) 5
  rw [Finset.sum_range_succ, Finset.sum_range_succ, Finset.sum_range_succ,
    Finset.sum_range_succ, Finset.sum_range_one] at h5
  norm_num [Nat.factorial] at h5
  linarith

lemma exp_04785_upper : Real.exp 0.4785 ≤ 1.6137 := by
  have h6 := @Real.exp_bound' 0.4785 (by norm_num) (by norm_num) 5 (by norm_num)
  rw [Finset.sum_range_succ, Finset.sum_range_succ, Finset.sum_range_succ,
    Finset.sum_range_succ, Finset.sum_range_one] at h6
  norm_num [Nat.factorial] at h6
  linarith

lemma exp_scenarioA_bounds :
    (4.384 : ℝ) ≤ Real.exp (5417.7530 * (1/273.15 - 1/295.15)) ∧
    Real.exp (5417.7530 * (1/273.15 - 1/295.15)) ≤ 4.387 := by
  have e1l := Real.exp_one_gt_d9
  have e1u := Real.exp_one_lt_d9
  have hsplitL : Real.exp (1.4784 : ℝ) = Real.exp 1 * Real.exp 0.4784 := by
    rw [← Real.exp_add]; norm_num
  have hsplitU : Real.exp (1.4785 : ℝ) = Real.exp 1 * Real.exp 0.4785 := by
    rw [← Real.exp_add]; norm_num
  have hA1 : (1.4784 : ℝ) ≤ 5417.7530 * (1/273.15 - 1/295.15) := by norm_num
  have hA2 : (5417.7530 : ℝ) * (1/273.15 - 1/295.15) ≤ 1.4785 := by norm_num
  constructor
  · have h1 : Real.exp (1.4784 : ℝ) ≤ Real.exp (5417.7530 * (1/273.15 - 1/295.15)) :=
      Real.exp_le_exp.mpr hA1
    have h2 : (2.7182818283 : ℝ) * 1.6132 ≤ Real.exp 1 * Real.exp 0.4784 := by
      have := exp_04784_lower
      nlinarith [Real.exp_pos (1:ℝ), Real.exp_pos (0.4784:ℝ)]
    rw [← hsplitL] at h2
    nlinarith
  · have h1 : Real.exp (5417.7530 * (1/273.15 - 1/295.15)) ≤ Real.exp (1.4785 : ℝ) :=
      Real.exp_le_exp.mpr hA2
    have h2 : Real.exp 1 * Real.exp 0.4785 ≤ (2.7182818286 : ℝ) * 1.6137 := by
      have := exp_04785_upper
      nlinarith [Real.exp_pos (1:ℝ), Real.exp_pos (0.4785:ℝ)]
    rw [← hsplitU] at h2
    nlinarith

lemma vp_standard_30_60_eq :
    calculate_vapor_pressure_standard 30 60 =
      6.11 * Real.exp (5417.7530 * (1/273.15 - 1/295.15)) := by
  unfold calculate_vapor_pressure_standard calculate_dew_point
  norm_num

lemma vp_standard_30_60_bounds :
    (26.78 : ℝ) ≤ calculate_vapor_pressure_standard 30 60 ∧
    calculate_vapor_pressure_standard 30 60 ≤ 26.81 := by
  rw [vp_standard_30_60_eq]
  obtain ⟨hl, hu⟩ := exp_scenarioA_bounds
  constructor <;> nlinarith

lemma humidex_standard_30_60 : humidex_standard 30 60 = 39.3 := by
  obtain ⟨hl, hu⟩ := vp_standard_30_60_bounds
  unfold humidex_standard humidexFormula roundTo1
  have h393 :
      round (10 * ((30 : ℝ) + 0.5555 * (calculate_vapor_pressure_standard 30 60 - 10))) = 393 := by
    rw [round_eq, Int.floor_eq_iff]
    push_cast
    constructor <;> nlinarith
  rw [h393]
  norm_num

/-- C3 counterexample: at temperature 30 °C, humidity 60 %, no pressure
bound, the engine publishes humidex 39.3 and comfort level
`very_uncomfortable`, not the claimed `SlightlyUncomfortable` (39.3 exceeds
the upper bound 39 of that band; even the claim's own value 39.1 would). -/
theorem C3_scenarioA_counterexample :
    attrs_comfort_level (update_humidex ⟨some (.numeric 30), some (.numeric 60), false, none,
        .celsius⟩) = some .very_uncomfortable ∧
    ComfortLevel.very_uncomfortable ≠ .slightly_uncomfortable ∧
    (update_humidex ⟨some (.numeric 30), some (.numeric 60), false, none,
        .celsius⟩).native_value = some (39.3 : ℝ) := by
  have hev : evalInputs ⟨some (.numeric 30), some (.numeric 60), false, none, .celsius⟩ =
      .ok 30 60 none := by decide
  have hup := update_ok_standard hev
  refine ⟨?_, by decide, ?_⟩
  · rw [hup]
    norm_num [attrs_comfort_level, humidex_standard_30_60]
    exact (comfort_very_iff _).mpr (by norm_num)
  · rw [hup]
    norm_num [humidex_standard_30_60]

/-- C3 (amended): at temperature 30 °C, humidity 60 %, no pressure bound,
the engine uses the Standard method, the dew point is 22 °C, the vapor
pressure e lies in [26.78, 26.81] (≈ 26.8, not ≈ 26.4), the published
humidex is 39.3 (not ≈ 39.1), and the comfort level is
`very_uncomfortable`. -/
theorem C3_scenarioA_amended :
    (update_humidex ⟨some (.numeric 30), some (.numeric 60), false, none,
        .celsius⟩).method = some .standard ∧
    calculate_dew_point 30 60 = 22 ∧
    ((26.78 : ℝ) ≤ calculate_vapor_pressure_standard 30 60 ∧
      calculate_vapor_pressure_standard 30 60 ≤ 26.81) ∧
    (update_humidex ⟨some (.numeric 30), some (.numeric 60), false, none,
        .celsius⟩).native_value = some (39.3 : ℝ) ∧
    attrs_comfort_level (update_humidex ⟨some (.numeric 30), some (.numeric 60), false, none,
        .celsius⟩) = some .very_uncomfortable := by
  have hev : evalInputs ⟨some (.numeric 30), some (.numeric 60), false, none, .celsius⟩ =
      .ok 30 60 none := by decide
  have hup := update_ok_standard hev
  refine ⟨by rw [hup], by unfold calculate_dew_point; norm_num, vp_standard_30_60_bounds, ?_, ?_⟩
  · rw [hup]; norm_num [humidex_standard_30_60]
  · rw [hup]
    norm_num [attrs_comfort_level, humidex_standard_30_60]
    exact (comfort_very_iff _).mpr (by norm_num)

end HumidexSensor
